import Mathlib

/-! Verification of the EvalMate answer-sheet evaluation core
    (src/advanced-evaluation.js) in a shallow embedding.
    JavaScript numbers are modelled as exact rationals, Math.round as
    floor (x + 1/2) (JavaScript rounds half toward positive infinity),
    and string operations work over String / List Char. -/

/-- JavaScript Math.round: round half toward positive infinity. -/
def jsRound (q : ℚ) : ℤ := ⌊q + 1/2⌋

/-- JavaScript Number.prototype.toFixed(1), modelled as the rounded
    rational value (the source keeps it as a one-decimal string). -/
def jsToFixed1 (q : ℚ) : ℚ := (jsRound (q * 10) : ℚ) / 10

/-- JavaScript String.prototype.toLowerCase (ASCII range, as used here). -/
def jsToLower (s : String) : String := String.mk (s.data.map Char.toLower)

/-- Checks that the first list is a leading segment of the second. -/
def leadSegEq : List Char → List Char → Bool
  | [], _ => true
  | _ :: _, [] => false
  | a :: as, b :: bs => a == b && leadSegEq as bs

/-- Checks that pat occurs as a contiguous segment of s. -/
def listContainsSeg (pat : List Char) : List Char → Bool
  | [] => leadSegEq pat []
  | c :: rest => leadSegEq pat (c :: rest) || listContainsSeg pat rest

/-- JavaScript String.prototype.includes. -/
def jsIncludes (s pat : String) : Bool := listContainsSeg pat.data s.data

/-- Comparison c < x where x may be NaN (IEEE comparisons with NaN are false). -/
def nanGt (x : Option ℚ) (c : ℚ) : Prop :=
  match x with
  | none => False
  | some q => c < q

/-- Comparison x < c where x may be NaN (IEEE comparisons with NaN are false). -/
def nanLt (x : Option ℚ) (c : ℚ) : Prop :=
  match x with
  | none => False
  | some q => q < c

instance (x : Option ℚ) (c : ℚ) : Decidable (nanGt x c) :=
  match x with
  | none => isFalse id
  | some q => inferInstanceAs (Decidable (c < q))

instance (x : Option ℚ) (c : ℚ) : Decidable (nanLt x c) :=
  match x with
  | none => isFalse id
  | some q => inferInstanceAs (Decidable (q < c))

/-- The keyword-counting forEach loop of lines 336-341: the number of
    keywords found inside the student text. -/
def countKeywordMatches (studentText : String) (keywords : List String) : ℕ :=
  (keywords.filter (fun k => jsIncludes studentText k)).length

/-- One extracted answer record of the mock OCR output:
    { text, confidence, handwriting_quality }. -/
structure ExtractedAnswer where
  text : String
  confidence : ℚ
  handwriting_quality : String
  deriving DecidableEq, Repr

/-- One model-answer entry of the answer key:
    { answer, explanation, keywords }. -/
structure ModelAnswer where
  answer : String
  explanation : String
  keywords : List String
  deriving DecidableEq, Repr

/-- The record returned by evaluateAnswerWithAI: { marks, feedback, status }. -/
structure EvalOutcome where
  marks : ℤ
  feedback : String
  status : String
  deriving DecidableEq, Repr

/-- Lines 364-386 of src/advanced-evaluation.js: the feedback/status
    cascade on obtainedMarks against maxMarks. -/
def feedbackStatus (obtainedMarks : ℤ) (maxMarks : ℕ) : String × String :=
  if obtainedMarks = (maxMarks : ℤ) then
    ("Excellent answer with complete understanding", "correct")
  else if (obtainedMarks : ℚ) ≥ (maxMarks : ℚ) * 0.8 then
    ("Very good answer, minor improvements needed", "correct")
  else if (obtainedMarks : ℚ) ≥ (maxMarks : ℚ) * 0.6 then
    ("Good understanding shown, needs more detail", "partial")
  else if (obtainedMarks : ℚ) ≥ (maxMarks : ℚ) * 0.4 then
    ("Partial understanding, review concepts", "partial")
  else if obtainedMarks > 0 then
    ("Limited understanding, needs significant improvement", "incorrect")
  else
    ("Incorrect or incomplete answer", "incorrect")

/-- Lines 326-397 of src/advanced-evaluation.js: AI-powered answer
    evaluation with intelligent scoring. -/
def evaluateAnswerWithAI (studentAnswer : Option ExtractedAnswer)
    (modelAnswer : ModelAnswer) (maxMarks : ℕ) : EvalOutcome :=
  match studentAnswer with
  | none => { marks := 0, feedback := "No answer detected", status := "skipped" }
  | some sa =>
    let studentText := jsToLower sa.text
    let _modelText := jsToLower modelAnswer.answer
    let keywords := modelAnswer.keywords.map jsToLower
    let keywordMatches := countKeywordMatches studentText keywords
    -- In JavaScript keywordMatches / keywords.length is NaN when the keyword
    -- list is empty, and every comparison against NaN is false.
    let keywordScore : Option ℚ :=
      if keywords.length = 0 then none
      else some ((keywordMatches : ℚ) / (keywords.length : ℚ))
    let conceptScore : ℚ :=
      if nanGt keywordScore 0.8 then 1.0
      else if nanGt keywordScore 0.6 then 0.8
      else if nanGt keywordScore 0.4 then 0.6
      else if nanGt keywordScore 0.2 then 0.4
      else 0.2
    let ocrAdjustment := sa.confidence * 0.1
    let handwritingBonus : ℚ :=
      if sa.handwriting_quality = "clear" then 0.05
      else if sa.handwriting_quality = "good" then 0.03
      else 0
    let finalScore := min (conceptScore + ocrAdjustment + handwritingBonus) 1.0
    let obtainedMarks := jsRound (finalScore * (maxMarks : ℚ))
    let fs := feedbackStatus obtainedMarks maxMarks
    let feedback1 := fs.1 ++ (if nanLt keywordScore 0.5 then " - Missing key concepts" else "")
    let feedback2 := feedback1 ++
      (if sa.confidence < 0.8 then " - Handwriting clarity could be improved" else "")
    { marks := obtainedMarks, feedback := feedback2, status := fs.2 }

/-- The mock OCR result record of lines 201-208:
    { detectedQuestions, skippedQuestions, extractedAnswers, ... }. -/
structure OcrResults where
  detectedQuestions : List ℕ
  skippedQuestions : List ℕ
  extractedAnswers : ℕ → Option ExtractedAnswer
  ocrConfidence : ℚ
  totalPages : ℕ
  processingTime : ℚ

/-- The question-paper analysis record of lines 214-228. -/
structure QuestionPaper where
  totalQuestions : ℕ
  totalMarks : ℕ
  questionMarks : ℕ → ℕ
  questionTypes : ℕ → String
  instructions : String
  timeAllowed : String

/-- The weighting table of lines 257-262 (documented but never used by the
    scoring computation). -/
structure MarkingScheme where
  conceptual_understanding : ℚ
  accuracy : ℚ
  presentation : ℚ
  completeness : ℚ

/-- The answer-key record of lines 233-263. -/
structure AnswerKey where
  modelAnswers : ℕ → ModelAnswer
  markingScheme : MarkingScheme

/-- One entry pushed onto questionDetails at lines 293-301. -/
structure QuestionDetail where
  qno : ℕ
  marks_allocated : ℕ
  marks_obtained : ℤ
  feedback : String
  status : String
  question_type : String
  ocr_confidence : ℚ
  deriving DecidableEq, Repr

/-- The evaluation record returned by performAIEvaluation, lines 308-322.
    percentage keeps the numeric value of the toFixed(1) string. -/
structure EvaluationReport where
  totalMarks : ℕ
  obtainedMarks : ℤ
  percentage : ℚ
  grade : String
  questionDetails : List QuestionDetail
  answeredCount : ℕ
  skippedCount : ℕ
  totalQuestions : ℕ
  ocrQuality : ℚ
  processingTime : ℚ
  overallFeedback : String
  strengths : List String
  improvements : List String

/-- Lines 163-209 of src/advanced-evaluation.js: the mock OCR output of
    performAdvancedOCR. The result does not depend on the input file, so the
    file parameter is dropped. -/
def performAdvancedOCR : OcrResults where
  detectedQuestions := [1, 2, 3, 5, 6, 7, 8, 9, 10, 11, 12, 14, 15, 16, 17, 18, 19, 20, 21]
  skippedQuestions := [4, 13]
  extractedAnswers := fun q =>
    match q with
    | 1 => some { text := "Option B", confidence := 0.95, handwriting_quality := "clear" }
    | 2 => some { text := "The process of photosynthesis converts carbon dioxide and water into glucose using sunlight energy", confidence := 0.87, handwriting_quality := "good" }
    | 3 => some { text := "Option A", confidence := 0.98, handwriting_quality := "clear" }
    | 5 => some { text := "Democracy is a form of government where power lies with the people who elect representatives", confidence := 0.82, handwriting_quality := "fair" }
    | 6 => some { text := "F = ma, Force equals mass times acceleration", confidence := 0.90, handwriting_quality := "good" }
    | 7 => some { text := "Option C", confidence := 0.93, handwriting_quality := "clear" }
    | 8 => some { text := "The area of triangle = 1/2 \xd7 base \xd7 height = 1/2 \xd7 6 \xd7 4 = 12 sq units", confidence := 0.85, handwriting_quality := "good" }
    | 9 => some { text := "Mitochondria is called powerhouse of cell because it produces energy in form of ATP through cellular respiration", confidence := 0.78, handwriting_quality := "poor" }
    | 10 => some { text := "To solve: 2x + 5 = 15, 2x = 10, x = 5", confidence := 0.88, handwriting_quality := "good" }
    | 11 => some { text := "Shakespeare wrote Romeo and Juliet", confidence := 0.91, handwriting_quality := "good" }
    | 12 => some { text := "India got independence on 15th August 1947 from British rule", confidence := 0.86, handwriting_quality := "fair" }
    | 14 => some { text := "Climate change affects global temperatures, weather patterns, sea levels and causes environmental issues", confidence := 0.81, handwriting_quality := "fair" }
    | 15 => some { text := "Ecosystem consists of biotic and abiotic factors interacting together in environment", confidence := 0.83, handwriting_quality := "fair" }
    | 16 => some { text := "Speed = Distance/Time = 100km/2hours = 50 km/hr", confidence := 0.89, handwriting_quality := "good" }
    | 17 => some { text := "Computer is electronic device that processes data", confidence := 0.87, handwriting_quality := "good" }
    | 18 => some { text := "Water cycle includes evaporation, condensation, precipitation and collection processes", confidence := 0.84, handwriting_quality := "fair" }
    | 19 => some { text := "Freedom struggle in India involved many leaders like Gandhi, Nehru, Patel who fought for independence", confidence := 0.79, handwriting_quality := "poor" }
    | 20 => some { text := "Photosynthesis equation: 6CO2 + 6H2O + light energy \u2192 C6H12O6 + 6O2", confidence := 0.86, handwriting_quality := "good" }
    | 21 => some { text := "Education is foundation of society. It develops knowledge, skills and character. Good education creates responsible citizens who contribute to nation building. It reduces poverty and promotes equality in society.", confidence := 0.82, handwriting_quality := "fair" }
    | _ => none
  ocrConfidence := 0.86
  totalPages := 4
  processingTime := 12.3

/-- Lines 212-229 of src/advanced-evaluation.js: the mock question-paper
    analysis. Indices outside 1..21 are absent in the source object. -/
def analyzeQuestionPaperWithOCR : QuestionPaper where
  totalQuestions := 21
  totalMarks := 100
  questionMarks := fun q =>
    match q with
    | 1 => 2 | 2 => 3 | 3 => 2 | 4 => 4 | 5 => 5 | 6 => 3 | 7 => 2 | 8 => 4
    | 9 => 5 | 10 => 6 | 11 => 3 | 12 => 4 | 13 => 2 | 14 => 5 | 15 => 6
    | 16 => 4 | 17 => 3 | 18 => 7 | 19 => 8 | 20 => 5 | 21 => 10
    | _ => 0
  questionTypes := fun q =>
    match q with
    | 1 => "MCQ" | 2 => "Short" | 3 => "MCQ" | 4 => "Short" | 5 => "Long"
    | 6 => "Short" | 7 => "MCQ" | 8 => "Short" | 9 => "Long" | 10 => "Long"
    | 11 => "Short" | 12 => "Short" | 13 => "MCQ" | 14 => "Long" | 15 => "Long"
    | 16 => "Short" | 17 => "Short" | 18 => "Long" | 19 => "Long" | 20 => "Long"
    | 21 => "Essay"
    | _ => ""
  instructions := "Answer all questions. Each question carries marks as indicated."
  timeAllowed := "3 hours"

/-- Lines 232-264 of src/advanced-evaluation.js: the mock answer key. -/
def processAnswerKeyWithAI : AnswerKey where
  modelAnswers := fun q =>
    match q with
    | 1 => { answer := "Option B", explanation := "Correct option based on the given context", keywords := ["Option B"] }
    | 2 => { answer := "Photosynthesis is the process by which plants convert carbon dioxide and water into glucose using sunlight energy and chlorophyll", explanation := "Complete definition with key components", keywords := ["photosynthesis", "carbon dioxide", "water", "glucose", "sunlight", "chlorophyll"] }
    | 3 => { answer := "Option A", explanation := "Correct choice for the given question", keywords := ["Option A"] }
    | 4 => { answer := "Newton\x27s first law states that an object at rest stays at rest and an object in motion stays in motion unless acted upon by external force", explanation := "Complete law with explanation", keywords := ["Newton\x27s first law", "rest", "motion", "external force"] }
    | 5 => { answer := "Democracy is a system of government where power is vested in the people who elect representatives to make decisions on their behalf", explanation := "Definition with key concepts", keywords := ["democracy", "government", "people", "elect", "representatives"] }
    | 6 => { answer := "F = ma (Force equals mass times acceleration)", explanation := "Newton\x27s second law formula", keywords := ["F = ma", "force", "mass", "acceleration"] }
    | 7 => { answer := "Option C", explanation := "Correct option", keywords := ["Option C"] }
    | 8 => { answer := "Area of triangle = (1/2) \xd7 base \xd7 height = (1/2) \xd7 6 \xd7 4 = 12 square units", explanation := "Formula application with calculation", keywords := ["area", "triangle", "base", "height", "12"] }
    | 9 => { answer := "Mitochondria is called the powerhouse of the cell because it produces energy (ATP) through cellular respiration", explanation := "Function and reason", keywords := ["mitochondria", "powerhouse", "energy", "ATP", "cellular respiration"] }
    | 10 => { answer := "2x + 5 = 15; 2x = 15 - 5; 2x = 10; x = 5", explanation := "Step by step solution", keywords := ["2x", "15", "10", "x = 5"] }
    | 11 => { answer := "William Shakespeare", explanation := "Author identification", keywords := ["Shakespeare", "William Shakespeare"] }
    | 12 => { answer := "India gained independence on August 15, 1947", explanation := "Historical date", keywords := ["India", "independence", "August 15", "1947"] }
    | 13 => { answer := "Option D", explanation := "Correct choice", keywords := ["Option D"] }
    | 14 => { answer := "Climate change refers to long-term changes in global temperatures and weather patterns, causing environmental and social impacts", explanation := "Comprehensive definition", keywords := ["climate change", "temperature", "weather patterns", "environmental", "impacts"] }
    | 15 => { answer := "An ecosystem is a community of living organisms interacting with their physical environment", explanation := "Definition with components", keywords := ["ecosystem", "organisms", "environment", "interaction"] }
    | 16 => { answer := "Speed = Distance \xf7 Time = 100 km \xf7 2 hours = 50 km/hr", explanation := "Formula and calculation", keywords := ["speed", "distance", "time", "50 km/hr"] }
    | 17 => { answer := "A computer is an electronic device that processes data and performs calculations", explanation := "Basic definition", keywords := ["computer", "electronic device", "processes data"] }
    | 18 => { answer := "The water cycle includes evaporation, condensation, precipitation, and collection", explanation := "Four main stages", keywords := ["water cycle", "evaporation", "condensation", "precipitation", "collection"] }
    | 19 => { answer := "India\x27s freedom struggle involved leaders like Mahatma Gandhi, Jawaharlal Nehru, and Sardar Patel who fought against British rule", explanation := "Key leaders and context", keywords := ["freedom struggle", "Gandhi", "Nehru", "Patel", "British rule"] }
    | 20 => { answer := "6CO\u2082 + 6H\u2082O + light energy \u2192 C\u2086H\u2081\u2082O\u2086 + 6O\u2082", explanation := "Chemical equation for photosynthesis", keywords := ["6CO2", "6H2O", "light energy", "C6H12O6", "6O2"] }
    | 21 => { answer := "Education is the foundation of society, developing knowledge, skills, and character while promoting equality and reducing poverty", explanation := "Essay response covering multiple aspects", keywords := ["education", "foundation", "society", "knowledge", "skills", "equality", "poverty"] }
    | _ => { answer := "", explanation := "", keywords := [] }
  markingScheme :=
    { conceptual_understanding := 0.4, accuracy := 0.3, presentation := 0.2, completeness := 0.1 }

/-- Modelled from the spec: the source calls getGrade (line 312) but the
    function body is not under src/; section 4.3 of the spec gives the fixed
    monotonic banding table on percentage. No claim depends on the grade. -/
def getGrade (percentage : ℚ) : String :=
  if percentage ≥ 90 then "A+"
  else if percentage ≥ 80 then "A"
  else if percentage ≥ 70 then "B"
  else if percentage ≥ 60 then "C"
  else "D"

/-- Lines 483-509 of src/advanced-evaluation.js. -/
def generateIntelligentFeedback (obtained : ℤ) (total : ℕ)
    (ocrResults : OcrResults) : String :=
  let percentage : ℚ := ((obtained : ℚ) / (total : ℚ)) * 100
  let feedback :=
    if percentage ≥ 90 then
      "Outstanding performance! Excellent mastery of the subject matter. "
    else if percentage ≥ 80 then
      "Very good performance with strong conceptual understanding. "
    else if percentage ≥ 70 then
      "Good performance with solid foundation, room for improvement in some areas. "
    else if percentage ≥ 60 then
      "Satisfactory performance. Focus on strengthening core concepts. "
    else
      "Needs significant improvement. Comprehensive review of material recommended. "
  let feedback := feedback ++
    (if ocrResults.ocrConfidence < 0.85 then
      "Note: Some answers had handwriting clarity issues which may have affected evaluation. "
    else "")
  let feedback := feedback ++
    (if ocrResults.skippedQuestions.length > 0 then
      toString ocrResults.skippedQuestions.length ++
        " questions were not attempted - work on time management. "
    else "")
  feedback

/-- Lines 511-532 of src/advanced-evaluation.js; goodAnswers is computed but
    never used in the source, hence the underscore. -/
def identifyAdvancedStrengths (questionDetails : List QuestionDetail) : List String :=
  let excellentAnswers := (questionDetails.filter (fun q =>
    decide (q.status = "correct" ∧ q.marks_obtained = (q.marks_allocated : ℤ)))).length
  let _goodAnswers := (questionDetails.filter (fun q =>
    decide (q.status = "correct" ∨ (q.status = "partial" ∧
      (q.marks_obtained : ℚ) ≥ (q.marks_allocated : ℚ) * 0.8)))).length
  let mcqPerformance := (questionDetails.filter (fun q =>
    decide (q.question_type = "MCQ" ∧ q.status = "correct"))).length
  let longAnswerPerformance := (questionDetails.filter (fun q =>
    decide (q.question_type = "Long" ∧
      (q.marks_obtained : ℚ) ≥ (q.marks_allocated : ℚ) * 0.7))).length
  (if excellentAnswers ≥ 5 then
    ["Excellent performance in " ++ toString excellentAnswers ++ " questions"]
  else []) ++
  (if mcqPerformance ≥ 3 then
    ["Strong performance in multiple choice questions"]
  else []) ++
  (if longAnswerPerformance ≥ 2 then
    ["Good analytical skills in long answer questions"]
  else []) ++
  ["Clear handwriting in most responses", "Systematic approach to problem solving"]

/-- Lines 534-557 of src/advanced-evaluation.js; the truthiness test
    q.ocr_confidence && q.ocr_confidence < 0.8 reads as nonzero-and-below. -/
def identifyAdvancedImprovements (questionDetails : List QuestionDetail)
    (skippedQuestions : List ℕ) : List String :=
  let poorAnswers := (questionDetails.filter (fun q =>
    decide (q.status = "incorrect"))).length
  let partialAnswers := (questionDetails.filter (fun q =>
    decide (q.status = "partial" ∧
      (q.marks_obtained : ℚ) < (q.marks_allocated : ℚ) * 0.6))).length
  let lowOcrConfidence := (questionDetails.filter (fun q =>
    decide (q.ocr_confidence ≠ 0 ∧ q.ocr_confidence < 0.8))).length
  (if skippedQuestions.length > 0 then
    ["Attempt all questions (Questions " ++
      String.intercalate ", " (skippedQuestions.map toString) ++ " were skipped)"]
  else []) ++
  (if poorAnswers > 0 then
    ["Review fundamental concepts (" ++ toString poorAnswers ++
      " questions need significant work)"]
  else []) ++
  (if partialAnswers > 0 then
    ["Provide more detailed explanations (" ++ toString partialAnswers ++
      " questions had incomplete answers)"]
  else []) ++
  (if lowOcrConfidence > 0 then
    ["Improve handwriting clarity for better evaluation"]
  else []) ++
  ["Practice more problems for concept reinforcement",
   "Work on time management to complete all questions"]

/-- The loop body of lines 272-301 of src/advanced-evaluation.js: one pass of
    the per-question evaluation loop, producing the questionDetails entry. -/
def evaluateQuestion (ocrResults : OcrResults) (questionPaper : QuestionPaper)
    (answerKey : AnswerKey) (qNum : ℕ) : QuestionDetail :=
  let allocatedMarks := questionPaper.questionMarks qNum
  let res : ℤ × String × String :=
    if qNum ∈ ocrResults.skippedQuestions then
      (0, "Question not attempted - no text detected by OCR", "skipped")
    else if qNum ∈ ocrResults.detectedQuestions then
      let studentAnswer := ocrResults.extractedAnswers qNum
      let modelAnswer := answerKey.modelAnswers qNum
      let evaluation := evaluateAnswerWithAI studentAnswer modelAnswer allocatedMarks
      (evaluation.marks, evaluation.feedback, evaluation.status)
    else
      (0, "", "not-attempted")
  { qno := qNum
    marks_allocated := allocatedMarks
    marks_obtained := res.1
    feedback := res.2.1
    status := res.2.2
    question_type := questionPaper.questionTypes qNum
    ocr_confidence :=
      match ocrResults.extractedAnswers qNum with
      | some a => a.confidence
      | none => 0 }

/-- Lines 267-323 of src/advanced-evaluation.js: the per-question loop over
    qNum = 1..totalQuestions plus the report assembly. -/
def performAIEvaluation (ocrResults : OcrResults) (questionPaper : QuestionPaper)
    (answerKey : AnswerKey) : EvaluationReport :=
  let questionDetails := (List.range' 1 questionPaper.totalQuestions).map
    (evaluateQuestion ocrResults questionPaper answerKey)
  let totalObtained : ℤ := (questionDetails.map (fun q => q.marks_obtained)).sum
  let percentage := jsToFixed1 ((totalObtained : ℚ) / (questionPaper.totalMarks : ℚ) * 100)
  { totalMarks := questionPaper.totalMarks
    obtainedMarks := totalObtained
    percentage := percentage
    grade := getGrade percentage
    questionDetails := questionDetails
    answeredCount := ocrResults.detectedQuestions.length
    skippedCount := ocrResults.skippedQuestions.length
    totalQuestions := questionPaper.totalQuestions
    ocrQuality := ocrResults.ocrConfidence
    processingTime := ocrResults.processingTime
    overallFeedback :=
      generateIntelligentFeedback totalObtained questionPaper.totalMarks ocrResults
    strengths := identifyAdvancedStrengths questionDetails
    improvements := identifyAdvancedImprovements questionDetails ocrResults.skippedQuestions }

lemma jsRound_min_mul_le (s : ℚ) (mm : ℕ) : jsRound (min s 1.0 * (mm : ℚ)) ≤ (mm : ℤ) := by
  have h1 : min s 1.0 ≤ 1 := le_trans (min_le_right _ _) (by norm_num)
  have h2 : min s 1.0 * (mm : ℚ) ≤ (mm : ℚ) := by
    nlinarith [(Nat.cast_nonneg mm : (0 : ℚ) ≤ (mm : ℚ))]
  have h3 : jsRound (min s 1.0 * (mm : ℚ)) < (mm : ℤ) + 1 := by
    apply Int.floor_lt.mpr
    push_cast
    linarith
  omega

lemma jsRound_min_mul_nonneg (s : ℚ) (mm : ℕ) (hs : 0 ≤ s) :
    0 ≤ jsRound (min s 1.0 * (mm : ℚ)) := by
  apply Int.le_floor.mpr
  have h1 : (0 : ℚ) ≤ min s 1.0 := le_min hs (by norm_num)
  have h2 : (0 : ℚ) ≤ min s 1.0 * (mm : ℚ) :=
    mul_nonneg h1 (Nat.cast_nonneg mm)
  push_cast
  linarith

lemma countKeywordMatches_map (s : String) (ks : List String) :
    countKeywordMatches s (ks.map jsToLower) =
      (ks.filter (fun k => jsIncludes s (jsToLower k))).length := by
  unfold countKeywordMatches
  rw [List.filter_map]
  simp only [List.length_map]
  rfl

lemma evalAI_marks_le (ans : Option ExtractedAnswer) (ma : ModelAnswer) (mm : ℕ) :
    (evaluateAnswerWithAI ans ma mm).marks ≤ (mm : ℤ) := by
  cases ans with
  | none => simp [evaluateAnswerWithAI]
  | some sa =>
    simp only [evaluateAnswerWithAI]
    exact jsRound_min_mul_le _ mm

lemma evalAI_marks_nonneg (ans : Option ExtractedAnswer) (ma : ModelAnswer) (mm : ℕ)
    (hconf : ∀ a, ans = some a → 0 ≤ a.confidence) :
    0 ≤ (evaluateAnswerWithAI ans ma mm).marks := by
  cases ans with
  | none => simp [evaluateAnswerWithAI]
  | some sa =>
    have hc : 0 ≤ sa.confidence := hconf sa rfl
    simp only [evaluateAnswerWithAI]
    apply jsRound_min_mul_nonneg
    split_ifs <;> nlinarith [hc]

lemma feedbackStatus_snd_eq (m : ℤ) (mm : ℕ) (h : 0 < mm) :
    (feedbackStatus m mm).2 =
      (if (0.8 : ℚ) ≤ (m : ℚ) / (mm : ℚ) then "correct"
       else if (0.4 : ℚ) ≤ (m : ℚ) / (mm : ℚ) then "partial"
       else "incorrect") := by
  have hmm : (0 : ℚ) < (mm : ℚ) := by exact_mod_cast h
  unfold feedbackStatus
  rcases eq_or_ne m (mm : ℤ) with h1 | h1
  · have h1q : (m : ℚ) = (mm : ℚ) := by exact_mod_cast h1
    rw [if_pos h1, if_pos (by rw [h1q, div_self hmm.ne']; norm_num)]
  · rw [if_neg h1]
    split_ifs <;> first
      | rfl
      | (exfalso
         simp only [le_div_iff₀ hmm] at *
         linarith)

lemma scenario16Eval :
    evaluateAnswerWithAI
      (some { text := "Speed equals Distance over Time, 50 km/hr",
              confidence := 0.89, handwriting_quality := "good" })
      { answer := "", explanation := "", keywords := ["speed", "distance", "time"] } 10 =
    { marks := 10, feedback := "Excellent answer with complete understanding",
      status := "correct" } := by
  have hm : countKeywordMatches (jsToLower "Speed equals Distance over Time, 50 km/hr")
      (List.map jsToLower ["speed", "distance", "time"]) = 3 := by decide
  have hl : (List.map jsToLower ["speed", "distance", "time"]).length = 3 := by decide
  simp only [evaluateAnswerWithAI]
  rw [hm, hl, if_neg (show ¬("good" : String) = "clear" from by decide)]
  norm_num [nanGt, nanLt, feedbackStatus, jsRound, min_def]

lemma emptyTextEval :
    evaluateAnswerWithAI
      (some { text := "", confidence := 0.95, handwriting_quality := "clear" })
      { answer := "x", explanation := "", keywords := ["x"] } 10 =
    { marks := 3,
      feedback := "Limited understanding, needs significant improvement - Missing key concepts",
      status := "incorrect" } := by
  have hm : countKeywordMatches (jsToLower "") (List.map jsToLower ["x"]) = 0 := by decide
  have hl : (List.map jsToLower ["x"]).length = 1 := by decide
  simp only [evaluateAnswerWithAI]
  rw [hm, hl]
  norm_num [nanGt, nanLt, feedbackStatus, jsRound, min_def]
  decide

lemma emptyKeywordEval :
    evaluateAnswerWithAI
      (some { text := "anything", confidence := 0.9, handwriting_quality := "good" })
      { answer := "", explanation := "", keywords := [] } 10 =
    { marks := 3,
      feedback := "Limited understanding, needs significant improvement",
      status := "incorrect" } := by
  simp only [evaluateAnswerWithAI]
  rw [if_neg (show ¬("good" : String) = "clear" from by decide)]
  norm_num [nanGt, nanLt, feedbackStatus, jsRound, min_def]

/-- Spec section 4.2 wording, stated only for the refinement claim C3:
    keyword coverage is the fraction of reference keywords present in the
    answer text under case-insensitive substring matching. -/
def coverageSpec (text : String) (keywords : List String) : ℚ :=
  ((keywords.filter (fun k => jsIncludes (jsToLower text) (jsToLower k))).length : ℚ) /
    (keywords.length : ℚ)

/-- Spec section 4.2 wording: the fixed coverage-to-conceptScore bands. -/
def conceptScoreSpec (coverage : ℚ) : ℚ :=
  if coverage > 0.8 then 1.0
  else if coverage > 0.6 then 0.8
  else if coverage > 0.4 then 0.6
  else if coverage > 0.2 then 0.4
  else 0.2

/-- Spec section 4.2 wording: handwriting bonus clear 0.05, good 0.03, else 0. -/
def handwritingBonusSpec (hw : String) : ℚ :=
  if hw = "clear" then 0.05 else if hw = "good" then 0.03 else 0

/-- Spec section 4.2 wording: marksObtained = round(min(conceptScore +
    confidence*0.1 + handwritingBonus, 1.0) * maxMarks). -/
def marksObtainedSpec (extracted : ExtractedAnswer) (keywords : List String)
    (maxMarks : ℕ) : ℤ :=
  jsRound (min (conceptScoreSpec (coverageSpec extracted.text keywords) +
    extracted.confidence * 0.1 + handwritingBonusSpec extracted.handwriting_quality)
    1.0 * (maxMarks : ℚ))

/-- C1 counterexample: the claim says an ExtractedAnswer with empty text never
    receives positive marks or a status other than skipped; the scorer only
    skips absent answers, and this empty-text answer earns 3 of 10 marks with
    status incorrect. -/
theorem C1_counterexample :
    (evaluateAnswerWithAI
        (some { text := "", confidence := 0.95, handwriting_quality := "clear" })
        { answer := "x", explanation := "", keywords := ["x"] } 10).status ≠ "skipped" ∧
    (evaluateAnswerWithAI
        (some { text := "", confidence := 0.95, handwriting_quality := "clear" })
        { answer := "x", explanation := "", keywords := ["x"] } 10).marks = 3 := by
  rw [emptyTextEval]
  exact ⟨by decide, rfl⟩

/-- C1 (amended): an absent ExtractedAnswer always yields status skipped with
    zero marks, but an ExtractedAnswer with empty text goes through the normal
    scoring path and can earn positive marks with a non-skipped status (here 3
    of 10 marks, status incorrect, thanks to the conceptScore floor of 0.2
    plus confidence and handwriting adjustments). -/
theorem C1_amended :
    (∀ (ma : ModelAnswer) (mm : ℕ),
        evaluateAnswerWithAI none ma mm =
          { marks := 0, feedback := "No answer detected", status := "skipped" }) ∧
    (evaluateAnswerWithAI
        (some { text := "", confidence := 0.95, handwriting_quality := "clear" })
        { answer := "x", explanation := "", keywords := ["x"] } 10).marks = 3 ∧
    (evaluateAnswerWithAI
        (some { text := "", confidence := 0.95, handwriting_quality := "clear" })
        { answer := "x", explanation := "", keywords := ["x"] } 10).status = "incorrect" := by
  refine ⟨fun ma mm => rfl, ?_, ?_⟩ <;> rw [emptyTextEval]

/-- C2 counterexample: the claim says scoring a reference with an empty
    keyword list fails with a ConfigurationError and never computes marks or a
    status; the code has no error path at all and returns an ordinary result
    (marks 3, status incorrect) on this empty-keyword input. -/
theorem C2_counterexample :
    evaluateAnswerWithAI
        (some { text := "anything", confidence := 0.9, handwriting_quality := "good" })
        { answer := "", explanation := "", keywords := [] } 10 =
      { marks := 3, feedback := "Limited understanding, needs significant improvement",
        status := "incorrect" } :=
  emptyKeywordEval

/-- C2 (amended): with an empty keyword list the scorer performs no
    validation: the JavaScript keyword score is NaN, every band comparison is
    false, conceptScore falls through to 0.2, and an ordinary QuestionResult
    is produced with marks = round(min(0.2 + confidence*0.1 +
    handwritingBonus, 1.0) * maxMarks) and status from the usual cascade. -/
theorem C2_amended (sa : ExtractedAnswer) (ma : ModelAnswer) (mm : ℕ)
    (hk : ma.keywords = []) :
    (evaluateAnswerWithAI (some sa) ma mm).marks =
      jsRound (min ((0.2 : ℚ) + sa.confidence * 0.1 +
        (if sa.handwriting_quality = "clear" then (0.05 : ℚ)
         else if sa.handwriting_quality = "good" then 0.03 else 0)) 1.0 * (mm : ℚ)) ∧
    (evaluateAnswerWithAI (some sa) ma mm).status =
      (feedbackStatus (evaluateAnswerWithAI (some sa) ma mm).marks mm).2 := by
  constructor
  · simp only [evaluateAnswerWithAI, hk, List.map_nil, List.length_nil]
    norm_num [nanGt]
  · rfl

/-- C2 amended witness at a concrete empty-keyword input. -/
theorem C2_amended_witness :
    ({ answer := "", explanation := "", keywords := [] } : ModelAnswer).keywords =
      ([] : List String) ∧
    ((evaluateAnswerWithAI
        (some { text := "anything", confidence := 0.9, handwriting_quality := "good" })
        { answer := "", explanation := "", keywords := [] } 10).marks =
      jsRound (min ((0.2 : ℚ) + (0.9 : ℚ) * 0.1 +
        (if ("good" : String) = "clear" then (0.05 : ℚ)
         else if ("good" : String) = "good" then 0.03 else 0)) 1.0 * (10 : ℚ)) ∧
    (evaluateAnswerWithAI
        (some { text := "anything", confidence := 0.9, handwriting_quality := "good" })
        { answer := "", explanation := "", keywords := [] } 10).status =
      (feedbackStatus (evaluateAnswerWithAI
        (some { text := "anything", confidence := 0.9, handwriting_quality := "good" })
        { answer := "", explanation := "", keywords := [] } 10).marks 10).2) :=
  ⟨rfl, C2_amended _ _ 10 rfl⟩

/-- C3: for every present answer and non-empty keyword list, the marks equal
    the spec formula round(min(band(coverage) + confidence*0.1 +
    handwritingBonus, 1.0) * maxMarks); and the spec scenario (keywords
    speed/distance/time, the question-16 text, confidence 0.89, handwriting
    good, maxMarks 10) yields 10 marks with status correct. -/
theorem C3_marks_formula :
    (∀ (sa : ExtractedAnswer) (ma : ModelAnswer) (mm : ℕ), ma.keywords ≠ [] →
      (evaluateAnswerWithAI (some sa) ma mm).marks = marksObtainedSpec sa ma.keywords mm) ∧
    evaluateAnswerWithAI
        (some { text := "Speed equals Distance over Time, 50 km/hr",
                confidence := 0.89, handwriting_quality := "good" })
        { answer := "", explanation := "", keywords := ["speed", "distance", "time"] } 10 =
      { marks := 10, feedback := "Excellent answer with complete understanding",
        status := "correct" } := by
  constructor
  · intro sa ma mm hk
    have h0 : ¬ ((List.map jsToLower ma.keywords).length = 0) := by
      simpa using hk
    simp only [evaluateAnswerWithAI, marksObtainedSpec, conceptScoreSpec, coverageSpec,
      handwritingBonusSpec, countKeywordMatches_map, List.length_map, gt_iff_lt]
    rw [if_neg (by simpa using hk : ¬ (ma.keywords.length = 0))]
    simp only [nanGt]
  · exact scenario16Eval

/-- C3 witness: the general formula applied at the concrete scenario input. -/
theorem C3_marks_formula_witness :
    (["speed", "distance", "time"] ≠ ([] : List String)) ∧
    (evaluateAnswerWithAI
        (some { text := "Speed equals Distance over Time, 50 km/hr",
                confidence := 0.89, handwriting_quality := "good" })
        { answer := "", explanation := "", keywords := ["speed", "distance", "time"] } 10).marks =
      marksObtainedSpec
        { text := "Speed equals Distance over Time, 50 km/hr",
          confidence := 0.89, handwriting_quality := "good" }
        ["speed", "distance", "time"] 10 :=
  ⟨by decide, C3_marks_formula.1 _ _ 10 (by decide)⟩

/-- C4: for every scored (present) answer with positive maxMarks, the status
    is determined purely by the ratio marksObtained/maxMarks: at least 0.8
    gives correct, at least 0.4 (but below 0.8) gives partial, anything
    below 0.4 (including zero) gives incorrect; it is never skipped. -/
theorem C4_status_bands (sa : ExtractedAnswer) (ma : ModelAnswer) (mm : ℕ)
    (h : 0 < mm) :
    ((evaluateAnswerWithAI (some sa) ma mm).status =
      (if (0.8 : ℚ) ≤ ((evaluateAnswerWithAI (some sa) ma mm).marks : ℚ) / (mm : ℚ) then
        "correct"
      else if (0.4 : ℚ) ≤ ((evaluateAnswerWithAI (some sa) ma mm).marks : ℚ) / (mm : ℚ) then
        "partial"
      else "incorrect")) ∧
    (evaluateAnswerWithAI (some sa) ma mm).status ≠ "skipped" := by
  have hst : (evaluateAnswerWithAI (some sa) ma mm).status =
      (feedbackStatus ((evaluateAnswerWithAI (some sa) ma mm).marks) mm).2 := rfl
  constructor
  · rw [hst, feedbackStatus_snd_eq _ _ h]
  · rw [hst, feedbackStatus_snd_eq _ _ h]
    split_ifs <;> decide

/-- C4 witness at a concrete scored answer. -/
theorem C4_status_bands_witness :
    0 < 10 ∧
    (((evaluateAnswerWithAI
        (some { text := "Speed equals Distance over Time, 50 km/hr",
                confidence := 0.89, handwriting_quality := "good" })
        { answer := "", explanation := "", keywords := ["speed", "distance", "time"] } 10).status =
      (if (0.8 : ℚ) ≤ ((evaluateAnswerWithAI
        (some { text := "Speed equals Distance over Time, 50 km/hr",
                confidence := 0.89, handwriting_quality := "good" })
        { answer := "", explanation := "", keywords := ["speed", "distance", "time"] } 10).marks : ℚ) / (10 : ℚ) then
        "correct"
      else if (0.4 : ℚ) ≤ ((evaluateAnswerWithAI
        (some { text := "Speed equals Distance over Time, 50 km/hr",
                confidence := 0.89, handwriting_quality := "good" })
        { answer := "", explanation := "", keywords := ["speed", "distance", "time"] } 10).marks : ℚ) / (10 : ℚ) then
        "partial"
      else "incorrect")) ∧
    (evaluateAnswerWithAI
        (some { text := "Speed equals Distance over Time, 50 km/hr",
                confidence := 0.89, handwriting_quality := "good" })
        { answer := "", explanation := "", keywords := ["speed", "distance", "time"] } 10).status ≠ "skipped") :=
  ⟨by decide, C4_status_bands _ _ 10 (by decide)⟩

lemma evaluateQuestion_qno (o : OcrResults) (qp : QuestionPaper) (ak : AnswerKey)
    (qNum : ℕ) : (evaluateQuestion o qp ak qNum).qno = qNum := rfl

lemma evaluateQuestion_marks_le (o : OcrResults) (qp : QuestionPaper) (ak : AnswerKey)
    (qNum : ℕ) :
    (evaluateQuestion o qp ak qNum).marks_obtained ≤ (qp.questionMarks qNum : ℤ) := by
  simp only [evaluateQuestion]
  split_ifs
  · exact Int.natCast_nonneg _
  · exact evalAI_marks_le _ _ _
  · exact Int.natCast_nonneg _

/-- C6: the report contains exactly one QuestionResult per question index
    1..N, in ascending index order (the qno projection of questionDetails is
    exactly the list 1, 2, ..., N). -/
theorem C6_all_questions_once (o : OcrResults) (qp : QuestionPaper) (ak : AnswerKey) :
    (performAIEvaluation o qp ak).questionDetails.map (fun q => q.qno) =
      List.range' 1 qp.totalQuestions := by
  simp only [performAIEvaluation, List.map_map]
  have hid : ((fun q => q.qno) ∘ evaluateQuestion o qp ak) = fun q => q := by
    funext q
    rfl
  rw [hid]
  exact List.map_id _

/-- C5: the obtainedMarks field of the report is the sum of the per-question
    marks_obtained, it never exceeds totalMarks (whenever the allocated marks
    sum to at most totalMarks, as in the fixed question paper of the repository),
    and percentage is obtainedMarks/totalMarks*100 rounded to one decimal. -/
theorem C5_report_totals (o : OcrResults) (qp : QuestionPaper) (ak : AnswerKey)
    (hsum : ((List.range' 1 qp.totalQuestions).map qp.questionMarks).sum ≤ qp.totalMarks) :
    (performAIEvaluation o qp ak).obtainedMarks =
      ((performAIEvaluation o qp ak).questionDetails.map (fun q => q.marks_obtained)).sum ∧
    (performAIEvaluation o qp ak).obtainedMarks ≤
      ((performAIEvaluation o qp ak).totalMarks : ℤ) ∧
    (performAIEvaluation o qp ak).percentage =
      jsToFixed1 (((performAIEvaluation o qp ak).obtainedMarks : ℚ) /
        ((performAIEvaluation o qp ak).totalMarks : ℚ) * 100) := by
  refine ⟨rfl, ?_, rfl⟩
  show ((((List.range' 1 qp.totalQuestions).map
    (evaluateQuestion o qp ak)).map (fun q => q.marks_obtained)).sum : ℤ) ≤ (qp.totalMarks : ℤ)
  rw [List.map_map]
  have h2 : (((List.range' 1 qp.totalQuestions).map
      ((fun q => q.marks_obtained) ∘ evaluateQuestion o qp ak)).sum : ℤ) ≤
      ((List.range' 1 qp.totalQuestions).map (fun q => (qp.questionMarks q : ℤ))).sum :=
    List.sum_le_sum (fun q _ => evaluateQuestion_marks_le o qp ak q)
  have h3 : ((List.range' 1 qp.totalQuestions).map (fun q => (qp.questionMarks q : ℤ))).sum =
      ((((List.range' 1 qp.totalQuestions).map qp.questionMarks).sum : ℕ) : ℤ) := by
    rw [Nat.cast_list_sum, List.map_map]
    rfl
  have h4 : ((((List.range' 1 qp.totalQuestions).map qp.questionMarks).sum : ℕ) : ℤ) ≤
      (qp.totalMarks : ℤ) := by exact_mod_cast hsum
  exact le_trans h2 (by rw [h3]; exact h4)

/-- C5 witness: the mock data of the repository itself (question marks summing to 93
    against totalMarks 100). -/
theorem C5_report_totals_witness :
    ((List.range' 1 analyzeQuestionPaperWithOCR.totalQuestions).map
      analyzeQuestionPaperWithOCR.questionMarks).sum ≤
        analyzeQuestionPaperWithOCR.totalMarks ∧
    ((performAIEvaluation performAdvancedOCR analyzeQuestionPaperWithOCR
        processAnswerKeyWithAI).obtainedMarks =
      ((performAIEvaluation performAdvancedOCR analyzeQuestionPaperWithOCR
        processAnswerKeyWithAI).questionDetails.map (fun q => q.marks_obtained)).sum ∧
    (performAIEvaluation performAdvancedOCR analyzeQuestionPaperWithOCR
        processAnswerKeyWithAI).obtainedMarks ≤
      ((performAIEvaluation performAdvancedOCR analyzeQuestionPaperWithOCR
        processAnswerKeyWithAI).totalMarks : ℤ) ∧
    (performAIEvaluation performAdvancedOCR analyzeQuestionPaperWithOCR
        processAnswerKeyWithAI).percentage =
      jsToFixed1 (((performAIEvaluation performAdvancedOCR analyzeQuestionPaperWithOCR
        processAnswerKeyWithAI).obtainedMarks : ℚ) /
        ((performAIEvaluation performAdvancedOCR analyzeQuestionPaperWithOCR
        processAnswerKeyWithAI).totalMarks : ℚ) * 100)) :=
  ⟨by decide, C5_report_totals _ _ _ (by decide)⟩

/-- C7: for every input whose extracted answer (if present) has nonnegative
    confidence, the scored marks lie between 0 and the allocated maximum. -/
theorem C7_marks_range (ans : Option ExtractedAnswer) (ma : ModelAnswer) (mm : ℕ)
    (hconf : ∀ a, ans = some a → 0 ≤ a.confidence) :
    0 ≤ (evaluateAnswerWithAI ans ma mm).marks ∧
    (evaluateAnswerWithAI ans ma mm).marks ≤ (mm : ℤ) :=
  ⟨evalAI_marks_nonneg ans ma mm hconf, evalAI_marks_le ans ma mm⟩

/-- C7 witness at a concrete answer. -/
theorem C7_marks_range_witness :
    (∀ a, (some { text := "Speed equals Distance over Time, 50 km/hr",
                  confidence := 0.89, handwriting_quality := "good" } :
            Option ExtractedAnswer) = some a → 0 ≤ a.confidence) ∧
    (0 ≤ (evaluateAnswerWithAI
        (some { text := "Speed equals Distance over Time, 50 km/hr",
                confidence := 0.89, handwriting_quality := "good" })
        { answer := "", explanation := "", keywords := ["speed", "distance", "time"] }
        10).marks ∧
    (evaluateAnswerWithAI
        (some { text := "Speed equals Distance over Time, 50 km/hr",
                confidence := 0.89, handwriting_quality := "good" })
        { answer := "", explanation := "", keywords := ["speed", "distance", "time"] }
        10).marks ≤ (10 : ℤ)) :=
  ⟨fun a h => by cases h; norm_num,
   C7_marks_range _ _ 10 (fun a h => by cases h; norm_num)⟩

/-- C8: scoring is a pure function of the (ExtractedAnswer, ReferenceAnswer,
    maxMarks) triple: two invocations whose answer text, confidence,
    handwriting quality and reference keywords agree produce identical
    QuestionResults, independently of any other reference fields or call
    history. -/
theorem C8_pure_function (a1 a2 : ExtractedAnswer) (r1 r2 : ModelAnswer) (mm : ℕ)
    (ht : a1.text = a2.text) (hc : a1.confidence = a2.confidence)
    (hh : a1.handwriting_quality = a2.handwriting_quality)
    (hk : r1.keywords = r2.keywords) :
    evaluateAnswerWithAI (some a1) r1 mm = evaluateAnswerWithAI (some a2) r2 mm := by
  cases a1; cases a2; cases r1; cases r2
  simp only at ht hc hh hk
  subst ht; subst hc; subst hh; subst hk
  simp only [evaluateAnswerWithAI]

/-- C8 witness: the same answer scored against two references that differ
    only in modelText and explanation gives identical results. -/
theorem C8_pure_function_witness :
    (("abc" : String) = "abc") ∧
    evaluateAnswerWithAI
        (some { text := "abc", confidence := 0.9, handwriting_quality := "good" })
        { answer := "first version", explanation := "x", keywords := ["abc"] } 5 =
      evaluateAnswerWithAI
        (some { text := "abc", confidence := 0.9, handwriting_quality := "good" })
        { answer := "second version", explanation := "y", keywords := ["abc"] } 5 :=
  ⟨rfl, C8_pure_function _ _ _ _ 5 rfl rfl rfl rfl⟩

/-- C9 counterexample: the claim says the time-management note names the
    skipped question indices; on the mock data of the repository itself (questions 4 and
    13 skipped) the generated overall feedback contains neither "4" nor "13"
    anywhere - the note only reports the count of skipped questions. -/
theorem C9_counterexample :
    performAdvancedOCR.skippedQuestions = [4, 13] ∧
    listContainsSeg (toString (4 : ℕ)).data
      (generateIntelligentFeedback 93 100 performAdvancedOCR).data = false ∧
    listContainsSeg (toString (13 : ℕ)).data
      (generateIntelligentFeedback 93 100 performAdvancedOCR).data = false := by
  have hfb : generateIntelligentFeedback 93 100 performAdvancedOCR =
      "Outstanding performance! Excellent mastery of the subject matter. " ++
        (toString (2 : ℕ) ++
          " questions were not attempted - work on time management. ") := by
    simp only [generateIntelligentFeedback, performAdvancedOCR]
    norm_num
  refine ⟨rfl, ?_, ?_⟩ <;> rw [hfb] <;> decide

/-- C9 (amended): whenever at least one question is skipped, the overall
    feedback ends with a time-management note naming the number of skipped
    questions (not their indices); when none is skipped, no time-management
    note appears anywhere in the feedback. -/
theorem C9_amended (obtained : ℤ) (total : ℕ) (ocr : OcrResults) :
    (ocr.skippedQuestions ≠ [] →
      ∃ pre, generateIntelligentFeedback obtained total ocr =
        pre ++ (toString ocr.skippedQuestions.length ++
          " questions were not attempted - work on time management. ")) ∧
    (ocr.skippedQuestions = [] →
      listContainsSeg "work on time management".data
        (generateIntelligentFeedback obtained total ocr).data = false) := by
  constructor
  · intro h
    exact ⟨_, by
      simp only [generateIntelligentFeedback]
      rw [if_pos (List.length_pos.mpr h)]⟩
  · intro h
    simp only [generateIntelligentFeedback, h, List.length_nil]
    rw [if_neg (by norm_num : ¬ ((0 : ℕ) > 0))]
    split_ifs <;> decide

/-- C9 amended witness: the repository mock data with skipped questions 4
    and 13 gets a note naming the count 2. -/
theorem C9_amended_witness :
    performAdvancedOCR.skippedQuestions ≠ [] ∧
    (∃ pre, generateIntelligentFeedback 93 100 performAdvancedOCR =
      pre ++ (toString performAdvancedOCR.skippedQuestions.length ++
        " questions were not attempted - work on time management. ")) :=
  ⟨by decide, (C9_amended 93 100 performAdvancedOCR).1 (by decide)⟩

/-- C10: the strengths list always ends with the two fixed entries about
    handwriting and systematic approach, the improvements list always ends
    with the two fixed entries about practice and time management, both
    appended unconditionally after any threshold-triggered entries, so
    neither list is ever empty. -/
theorem C10_fixed_tail (qd : List QuestionDetail) (skipped : List ℕ) :
    (∃ pre, identifyAdvancedStrengths qd =
      pre ++ ["Clear handwriting in most responses",
              "Systematic approach to problem solving"]) ∧
    (∃ pre, identifyAdvancedImprovements qd skipped =
      pre ++ ["Practice more problems for concept reinforcement",
              "Work on time management to complete all questions"]) ∧
    identifyAdvancedStrengths qd ≠ [] ∧
    identifyAdvancedImprovements qd skipped ≠ [] := by
  constructor
  · exact ⟨_, rfl⟩
  constructor
  · exact ⟨_, rfl⟩
  constructor
  · simp [identifyAdvancedStrengths, List.append_eq_nil]
  · simp [identifyAdvancedImprovements, List.append_eq_nil]
